import Mathlib

/-!
Verification of the streams demo driver (src/c/main.c) against the channel
protocol specification.

The repository holds a single C translation unit, main.c, which drives the
streams library (author/subscriber channel protocol). The library itself is
declared in include/streams.h and is not part of the repository sources, so
the author and subscriber state machines, identity derivation and seed
validation are modelled from the specification; the driver main.c is embedded
directly: its seed-generation loop, its buffer writes, and the sequence of
library calls it makes (as an event trace).
-/

namespace Streams

/-! Seed generation, from main.c lines 10-18.

The C code declares a 10-byte buffer, fills indices 0..9 from the charset
using rand() modulo (sizeof charset - 1), and then writes a terminating NUL
at index 10. -/

/-- The 27 usable characters of the charset, without the terminating NUL. -/
def charsetLetters : List Char := "ABCDEFGHIJKLMNOPQRSTUVWXYZ9".toList

/-- The C array char charset[] = "ABCDEFGHIJKLMNOPQRSTUVWXYZ9": 27 letters
followed by the string terminator, 28 bytes in total (its sizeof). -/
def charset : List Char := charsetLetters ++ [Char.ofNat 0]

/-- One character of the seed: charset[rand() % (sizeof charset - 1)],
where r models the value returned by rand() (a non-negative int). -/
def seedChar (r : Nat) : Char := charset.getD (r % (charset.length - 1)) (Char.ofNat 0)

/-- The seed built by the for loop: 10 iterations, n = 0..9, each storing
seedChar of the n-th rand() call. rand abstracts the sequence of values
rand() returns after srand(time(NULL)). -/
def mkSeed (rand : Nat → Nat) : List Char := (List.range 10).map (fun n => seedChar (rand n))

/-- The declared length of the C buffer char seed[10]. -/
def seedBufLen : Nat := 10

/-- Indices of seed[] written by main: the loop writes indices 0..9, and the
statement seed[10] = the NUL character then writes index 10. -/
def seedWriteIndices : List Nat := List.range 10 ++ [10]

/-- Modelled from the spec: identity derivation fails with InvalidSeed if the
seed is empty or outside the accepted character set; the check itself lives in
the streams library, which is not under the repository sources. -/
def validSeed (s : List Char) : Bool := !s.isEmpty && s.all (fun c => charsetLetters.contains c)

/-! Constant arguments of the library calls in main.c. -/

/-- The encoding argument, char encoding[] = "utf-8". -/
def encodingArg : String := "utf-8"

/-- The size argument, const size_t size = 1024. -/
def sizeArg : Nat := 1024

/-- The multi_branching argument, bool multi_branching = true. -/
def multiBranchingArg : Bool := true

/-- The contents of the C variable char sub_seed_a[] (main.c line 42). -/
def sub_seed_a : String := "SUBSCRIBERA9SEED"

/-- The first argument actually passed to sub_new (main.c line 44): the
string literal "sub_seed_a", not the variable sub_seed_a. -/
def subNewSeedArg : String := "sub_seed_a"

/-! The event trace of main. -/

/-- The two ledger addresses main fetches from: the announcement link and the
subscription link. -/
inductive Addr where
  | annLink
  | subLink
deriving DecidableEq, Repr

/-- One library call made by main.c, with the arguments that matter to the
protocol. Constructors for the keyload / tagged / signed packet calls exist
because the protocol has those payload kinds; main.c has them only inside a
comment, so they never occur in its trace. -/
inductive Event where
  | authNew (seed : List Char) (encoding : String) (size : Nat) (multiBranching : Bool)
  | authChannelAddress
  | authAnnounce
  | getTransaction (link : Addr)
  | subNew (seed : String) (encoding : String) (size : Nat)
  | subUnwrapAnnounce (link : Addr)
  | subSubscribe (link : Addr)
  | authUnwrapSubscribe
  | authShareKeyload
  | authTagPacket (publicPayload : String) (privatePayload : String)
  | authSignPacket (publicPayload : String) (privatePayload : String)
  | subUnwrapKeyload (sigValid : Bool) (includesSelf : Bool)
  | subFetchDecrypt (link : Addr)
deriving DecidableEq, Repr

/-- Result of running main: the trace of library calls it makes, in program
order, and its exit code. -/
structure MainResult where
  trace : List Event
  exitCode : Int
deriving Repr

/-- The execution of main.c: the statements that are actually compiled (the
keyload / tagged / signed packet block at lines 60-88 is commented out).
rand abstracts the C rand() sequence; the seed passed to auth_new is the one
the generation loop produced. -/
def runMain (rand : Nat → Nat) : MainResult :=
  { trace := [
      Event.authNew (mkSeed rand) encodingArg sizeArg multiBranchingArg,
      Event.authChannelAddress,
      Event.authAnnounce,
      Event.getTransaction Addr.annLink,
      Event.subNew subNewSeedArg encodingArg sizeArg,
      Event.subUnwrapAnnounce Addr.annLink,
      Event.subSubscribe Addr.annLink,
      Event.getTransaction Addr.subLink,
      Event.authUnwrapSubscribe ],
    exitCode := 0 }

/-- A fixed rand sequence used to instantiate theorems at one concrete run. -/
def zeroRand : Nat → Nat := fun _ => 0

/-! Event predicates. -/

/-- True on the auth_announce event. -/
def isAuthAnnounce : Event → Bool
  | Event.authAnnounce => true
  | _ => false

/-- True on the sub_unwrap_announce event. -/
def isSubUnwrapAnnounce : Event → Bool
  | Event.subUnwrapAnnounce _ => true
  | _ => false

/-- True on the sub_subscribe event. -/
def isSubSubscribe : Event → Bool
  | Event.subSubscribe _ => true
  | _ => false

/-- True on the auth_unwrap_subscribe event. -/
def isAuthUnwrapSubscribe : Event → Bool
  | Event.authUnwrapSubscribe => true
  | _ => false

/-- True on the keyload-sharing event (auth_share_keyload_for_everyone). -/
def isShareKeyload : Event → Bool
  | Event.authShareKeyload => true
  | _ => false

/-- True on a subscriber keyload-unwrapping event. -/
def isSubUnwrapKeyload : Event → Bool
  | Event.subUnwrapKeyload _ _ => true
  | _ => false

/-- True on a tagged-packet publication event (auth_tag_packet). -/
def isTagPacket : Event → Bool
  | Event.authTagPacket _ _ => true
  | _ => false

/-- True on a subscriber fetch-and-decrypt event. -/
def isSubFetchDecrypt : Event → Bool
  | Event.subFetchDecrypt _ => true
  | _ => false

/-- True on any get_transaction event. -/
def isFetch : Event → Bool
  | Event.getTransaction _ => true
  | _ => false

/-- True on a get_transaction event for the given link. -/
def isFetchAt (l : Addr) : Event → Bool := fun e =>
  match e with
  | Event.getTransaction l2 => l == l2
  | _ => false

/-- The claim that main executes the full end-to-end scenario of the spec:
announce, announcement unwrap, subscribe, acceptance, keyload issue, keyload
unwrap, tagged-packet publication, and subscriber fetch-and-decrypt all occur
in the trace. -/
def executesFullScenario (t : List Event) : Bool :=
  t.any isAuthAnnounce && t.any isSubUnwrapAnnounce && t.any isSubSubscribe
    && t.any isAuthUnwrapSubscribe && t.any isShareKeyload && t.any isSubUnwrapKeyload
    && t.any isTagPacket && t.any isSubFetchDecrypt

/-! The protocol state machines, modelled from the spec (the streams library
implementing them is not among the repository sources). -/

/-- Modelled from the spec: the protocol error taxonomy of section 7. -/
inductive ProtocolError where
  | InvalidSeed
  | AddressCollision
  | MalformedAddress
  | CorruptEnvelope
  | SignatureInvalid
  | DecryptionFailed
  | UnsupportedPayloadKind
  | OutOfOrder
  | UnknownChannel
  | Unauthorized
  | AlreadyAnnounced
  | AnnouncementUnknown
  | BranchNotKeyed
  | NotAnAnnouncement
deriving DecidableEq, Repr

/-- Modelled from the spec: the subscriber states of section 4.7, Created,
AnnouncementKnown, Subscribed, Active, in that order. -/
inductive SubState where
  | Created
  | AnnouncementKnown
  | Subscribed
  | Active
deriving DecidableEq, Repr

/-- Position of a subscriber state in the progression of section 4.7; used to
express "state is at least AnnouncementKnown". -/
def SubState.rank : SubState → Nat
  | SubState.Created => 0
  | SubState.AnnouncementKnown => 1
  | SubState.Subscribed => 2
  | SubState.Active => 3

/-- Modelled from the spec: the subscriber state machine of section 4.7, one
step per library call. Unwrapping the genuine announcement (the message at
the announcement link) records the channel; subscribing requires state at
least AnnouncementKnown and otherwise fails with AnnouncementUnknown;
unwrapping a keyload reaches Active only when the subscriber's own key is in
the authorized set; a decrypt attempt outside Active fails; author-side calls
leave the subscriber state unchanged. -/
def subStep (st : SubState) (e : Event) : Except ProtocolError SubState :=
  match e with
  | Event.subUnwrapAnnounce l =>
      if l = Addr.annLink then Except.ok SubState.AnnouncementKnown
      else Except.error ProtocolError.NotAnAnnouncement
  | Event.subSubscribe _ =>
      if 1 ≤ st.rank then Except.ok SubState.Subscribed
      else Except.error ProtocolError.AnnouncementUnknown
  | Event.subUnwrapKeyload sigValid includesSelf =>
      if sigValid then
        (if includesSelf then Except.ok SubState.Active else Except.ok SubState.Subscribed)
      else Except.error ProtocolError.SignatureInvalid
  | Event.subFetchDecrypt _ =>
      if st = SubState.Active then Except.ok st
      else Except.error ProtocolError.BranchNotKeyed
  | _ => Except.ok st

/-- Run the subscriber state machine over a trace, stopping at the first
error. -/
def subRun : SubState → List Event → Except ProtocolError SubState
  | st, [] => Except.ok st
  | st, e :: es =>
    match subStep st e with
    | Except.ok st2 => subRun st2 es
    | Except.error er => Except.error er

/-- Modelled from the spec: the author states of section 4.6. -/
inductive AuthState where
  | Created
  | Announced
  | Active
deriving DecidableEq, Repr

/-- Modelled from the spec: the author state machine of section 4.6; announce
fails with AlreadyAnnounced when called twice on the same identity, and the
other calls in the executed trace leave the author state unchanged. -/
def authStep (st : AuthState) (e : Event) : Except ProtocolError AuthState :=
  match e with
  | Event.authAnnounce =>
      if st = AuthState.Created then Except.ok AuthState.Announced
      else Except.error ProtocolError.AlreadyAnnounced
  | _ => Except.ok st

/-- Run the author state machine over a trace, stopping at the first error. -/
def authRun : AuthState → List Event → Except ProtocolError AuthState
  | st, [] => Except.ok st
  | st, e :: es =>
    match authStep st e with
    | Except.ok st2 => authRun st2 es
    | Except.error er => Except.error er

/-- True when a subscriber run ended in the Active state. -/
def retActive : Except ProtocolError SubState → Bool
  | Except.ok SubState.Active => true
  | _ => false

/-- True when a subscriber run failed with AnnouncementUnknown. -/
def retAnnUnknown : Except ProtocolError SubState → Bool
  | Except.error ProtocolError.AnnouncementUnknown => true
  | _ => false

/-! Identity derivation, modelled from the spec. -/

/-- Modelled from the spec: an Identity's key material, a signing keypair and
a stream cipher key (section 3); the concrete key bytes are abstracted as
numbers. -/
structure Identity where
  signingPub : Nat
  signingPriv : Nat
  encryptionKey : Nat
deriving DecidableEq, Repr

/-- Modelled from the spec: derive(seed, encoding) of section 4.1, the
deterministic derivation of an Identity from a seed and an encoding tag; the
streams library implementation is not among the repository sources, so the
key-derivation function is abstracted as a fold over the input characters. -/
def derive (seed : List Char) (encoding : String) : Identity :=
  let h := (seed ++ encoding.toList).foldl (fun a c => (a * 131 + c.toNat) % 1000003) 7
  { signingPub := (h * 37 + 2) % 1000003,
    signingPriv := (h * 31 + 1) % 1000003,
    encryptionKey := (h * 41 + 3) % 1000003 }

/-- The author identity main derives: auth_new(seed, "utf-8", ...) on the
generated seed. -/
def authIdentity (rand : Nat → Nat) : Identity := derive (mkSeed rand) encodingArg

/-- The subscriber identity main derives: sub_new("sub_seed_a", "utf-8", ...). -/
def subAIdentity : Identity := derive subNewSeedArg.toList encodingArg

/-- The order of protocol calls the spec's control flow requires, as executed
by main: author creation, channel-address derivation, announcement,
announcement unwrap by the subscriber, subscription, subscription unwrap by
the author. -/
def c2Pattern (rand : Nat → Nat) : List Event :=
  [ Event.authNew (mkSeed rand) encodingArg sizeArg multiBranchingArg,
    Event.authChannelAddress,
    Event.authAnnounce,
    Event.subUnwrapAnnounce Addr.annLink,
    Event.subSubscribe Addr.annLink,
    Event.authUnwrapSubscribe ]

/-- The protocol steps of the scenario that main does execute, in order. -/
def scenarioPrefixPattern : List Event :=
  [ Event.authAnnounce,
    Event.subUnwrapAnnounce Addr.annLink,
    Event.subSubscribe Addr.annLink,
    Event.authUnwrapSubscribe ]

/-! Helper lemmas. -/

/-- Every character the seed loop can store is one of the 27 charset letters
and is not the terminating NUL: the index is taken modulo 27, so the NUL at
index 27 of the array is never selected. -/
theorem seedChar_mem (r : Nat) :
    charsetLetters.contains (seedChar r) = true ∧ (seedChar r == Char.ofNat 0) = false := by
  have hk : r % 27 < 27 := Nat.mod_lt _ (by norm_num)
  have hall : ∀ k, k < 27 →
      charsetLetters.contains (charset.getD k (Char.ofNat 0)) = true ∧
        (charset.getD k (Char.ofNat 0) == Char.ofNat 0) = false := by decide
  have hlen : charset.length - 1 = 27 := by decide
  unfold seedChar
  rw [hlen]
  exact hall _ hk

/-- A subscriber run that succeeds on a whole trace succeeds on each of its
prefixes. -/
theorem subRun_take_ok (l : List Event) :
    ∀ (st st2 : SubState), subRun st l = Except.ok st2 →
      ∀ (i : Nat), ∃ st3, subRun st (l.take i) = Except.ok st3 := by
  induction l with
  | nil =>
    intro st st2 _ i
    exact ⟨st, by simp [subRun]⟩
  | cons e es ih =>
    intro st st2 h i
    cases i with
    | zero => exact ⟨st, rfl⟩
    | succ j =>
      rw [List.take_succ_cons]
      simp only [subRun] at h ⊢
      cases hs : subStep st e with
      | ok stm =>
        rw [hs] at h
        obtain ⟨st3, h3⟩ := ih stm st2 h j
        exact ⟨st3, h3⟩
      | error er =>
        rw [hs] at h
        exact absurd h (by simp)

/-- A single non-keyload subscriber step never moves into the Active state
from outside it. -/
theorem subStep_no_keyload_not_active (st : SubState) (e : Event) (st2 : SubState)
    (hst : st ≠ SubState.Active) (he : isSubUnwrapKeyload e = false)
    (h : subStep st e = Except.ok st2) : st2 ≠ SubState.Active := by
  cases e with
  | subUnwrapAnnounce l =>
    simp only [subStep] at h
    split at h
    · cases h; decide
    · cases h
  | subSubscribe l =>
    simp only [subStep] at h
    split at h
    · cases h; decide
    · cases h
  | subUnwrapKeyload sv inc => simp [isSubUnwrapKeyload] at he
  | subFetchDecrypt l =>
    simp only [subStep] at h
    split at h
    · cases h; assumption
    · cases h
  | authNew s e sz mb => cases h; exact hst
  | authChannelAddress => cases h; exact hst
  | authAnnounce => cases h; exact hst
  | getTransaction l => cases h; exact hst
  | subNew s e sz => cases h; exact hst
  | authUnwrapSubscribe => cases h; exact hst
  | authShareKeyload => cases h; exact hst
  | authTagPacket p q => cases h; exact hst
  | authSignPacket p q => cases h; exact hst

/-- Over any trace with no keyload-unwrapping event, a subscriber starting
outside Active never ends Active: Active is reachable only through a keyload. -/
theorem subRun_no_keyload_not_active (l : List Event) :
    ∀ (st : SubState), st ≠ SubState.Active →
      (∀ e ∈ l, isSubUnwrapKeyload e = false) →
      retActive (subRun st l) = false := by
  induction l with
  | nil =>
    intro st hst _
    cases st with
    | Active => exact absurd rfl hst
    | Created => rfl
    | AnnouncementKnown => rfl
    | Subscribed => rfl
  | cons e es ih =>
    intro st hst hall
    simp only [subRun]
    cases hs : subStep st e with
    | error er => rfl
    | ok st2 =>
      exact ih st2
        (subStep_no_keyload_not_active st e st2 hst (hall e (by simp)) hs)
        (fun e2 he2 => hall e2 (List.mem_cons_of_mem _ he2))

/-! Claim theorems. -/

/-- C1 (counterexample): at a concrete run of main, the full end-to-end
scenario of the spec is not executed: the trace never issues a keyload, never
unwraps one, never publishes a tagged packet and the subscriber never
fetches-and-decrypts, so executesFullScenario is false. -/
theorem c1_full_scenario_fails : executesFullScenario (runMain zeroRand).trace = false := rfl

/-- C1 (amended): in every execution, main carries the scenario only through
the author accepting the subscription: the announce, announcement-unwrap,
subscribe and subscription-unwrap steps occur in order, but no keyload is
issued or unwrapped, no tagged packet is published, the subscriber never
decrypts, and the subscriber run ends in Subscribed, not Active. -/
theorem c1_scenario_prefix_only (rand : Nat → Nat) :
    List.Sublist scenarioPrefixPattern (runMain rand).trace ∧
    (runMain rand).trace.countP isShareKeyload = 0 ∧
    (runMain rand).trace.countP isSubUnwrapKeyload = 0 ∧
    (runMain rand).trace.countP isTagPacket = 0 ∧
    (runMain rand).trace.countP isSubFetchDecrypt = 0 ∧
    subRun SubState.Created (runMain rand).trace = Except.ok SubState.Subscribed := by
  refine ⟨?_, rfl, rfl, rfl, rfl, rfl⟩
  exact List.Sublist.cons _ (List.Sublist.cons _ (List.Sublist.cons₂ _ (List.Sublist.cons _
    (List.Sublist.cons _ (List.Sublist.cons₂ _ (List.Sublist.cons₂ _ (List.Sublist.cons _
      (List.Sublist.cons₂ _ List.Sublist.slnil))))))))

/-- C2: in every execution of main the protocol calls happen in the spec's
control-flow order (author creation, channel-address derivation, announce,
announcement unwrap, subscribe, subscription unwrap — an ordered subsequence
of the trace); just before the subscribe call the subscriber state is already
AnnouncementKnown, the whole subscriber run succeeds ending Subscribed, and no
prefix of the run ever fails with AnnouncementUnknown. -/
theorem c2_control_flow_order (rand : Nat → Nat) :
    List.Sublist (c2Pattern rand) (runMain rand).trace ∧
    subRun SubState.Created ((runMain rand).trace.take 6) =
      Except.ok SubState.AnnouncementKnown ∧
    subRun SubState.Created (runMain rand).trace = Except.ok SubState.Subscribed ∧
    ∀ (i : Nat), retAnnUnknown (subRun SubState.Created ((runMain rand).trace.take i)) = false := by
  refine ⟨?_, rfl, rfl, ?_⟩
  · exact List.Sublist.cons₂ _ (List.Sublist.cons₂ _ (List.Sublist.cons₂ _ (List.Sublist.cons _
      (List.Sublist.cons _ (List.Sublist.cons₂ _ (List.Sublist.cons₂ _ (List.Sublist.cons _
        (List.Sublist.cons₂ _ List.Sublist.slnil))))))))
  · intro i
    obtain ⟨st3, h3⟩ :=
      subRun_take_ok (runMain rand).trace SubState.Created SubState.Subscribed rfl i
    rw [h3]
    rfl

/-- C3: in every execution of main the subscriber unwraps the announcement
exactly once, no keyload is ever applied to it, and at no point of the run —
over any prefix of the trace — is the subscriber in the Active state. -/
theorem c3_never_active (rand : Nat → Nat) :
    (runMain rand).trace.countP isSubUnwrapAnnounce = 1 ∧
    (runMain rand).trace.countP isSubUnwrapKeyload = 0 ∧
    ∀ (i : Nat), retActive (subRun SubState.Created ((runMain rand).trace.take i)) = false := by
  refine ⟨rfl, rfl, ?_⟩
  intro i
  apply subRun_no_keyload_not_active
  · decide
  · intro e he
    have hm := List.take_subset i (runMain rand).trace he
    simp only [runMain, List.mem_cons, List.not_mem_nil, or_false] at hm
    rcases hm with rfl | rfl | rfl | rfl | rfl | rfl | rfl | rfl | rfl <;> rfl

/-- C4: in every execution the 10-character seed passed to auth_new (the
head event of the trace carries exactly the generated seed) has length 10, is
accepted by the seed validity check (non-empty, all characters in the
restricted charset), and contains no NUL character: the modulo by
(sizeof charset - 1) never selects the terminator, so InvalidSeed is
unreachable for the author. -/
theorem c4_seed_always_valid (rand : Nat → Nat) :
    (runMain rand).trace.head? =
      some (Event.authNew (mkSeed rand) encodingArg sizeArg multiBranchingArg) ∧
    (mkSeed rand).length = 10 ∧
    validSeed (mkSeed rand) = true ∧
    (mkSeed rand).all (fun c => !(c == Char.ofNat 0)) = true := by
  refine ⟨rfl, by simp [mkSeed], ?_, ?_⟩
  · unfold validSeed
    rw [Bool.and_eq_true]
    constructor
    · simp [mkSeed]
    · rw [List.all_eq_true]
      intro c hc
      simp only [mkSeed, List.mem_map, List.mem_range] at hc
      obtain ⟨n, _, rfl⟩ := hc
      exact (seedChar_mem (rand n)).1
  · rw [List.all_eq_true]
    intro c hc
    simp only [mkSeed, List.mem_map, List.mem_range] at hc
    obtain ⟨n, _, rfl⟩ := hc
    simp [(seedChar_mem (rand n)).2]

/-- C5: in every execution of main auth_announce occurs exactly once in the
trace, and the author state machine run over the whole trace succeeds ending
Announced — the AlreadyAnnounced failure never occurs. -/
theorem c5_announce_once (rand : Nat → Nat) :
    (runMain rand).trace.countP isAuthAnnounce = 1 ∧
    authRun AuthState.Created (runMain rand).trace = Except.ok AuthState.Announced :=
  ⟨rfl, rfl⟩

/-- C6 (counterexample): at a concrete run of main, each get_transaction call
is issued exactly once — one fetch of the announcement link, one fetch of the
subscription link, two fetches in total — contradicting the claim that each
fetch is retried with backoff rather than issued exactly once. -/
theorem c6_fetch_not_retried :
    (runMain zeroRand).trace.countP (isFetchAt Addr.annLink) = 1 ∧
    (runMain zeroRand).trace.countP (isFetchAt Addr.subLink) = 1 ∧
    (runMain zeroRand).trace.countP isFetch = 2 :=
  ⟨rfl, rfl, rfl⟩

/-- C6 (amended): in every execution of main each get_transaction call is
issued exactly once with its result consumed unconditionally: the trace holds
exactly one fetch per link and exactly two fetches in total, with no retry
loop. -/
theorem c6_fetch_once (rand : Nat → Nat) :
    (runMain rand).trace.countP (isFetchAt Addr.annLink) = 1 ∧
    (runMain rand).trace.countP (isFetchAt Addr.subLink) = 1 ∧
    (runMain rand).trace.countP isFetch = 2 :=
  ⟨rfl, rfl, rfl⟩

/-- C7: identity derivation is deterministic: for every seed and encoding,
deriving twice yields the same signing keypair and encryption key, and the
identities main derives (auth_new on the generated seed, sub_new on its
literal argument) are exactly the derivations from those arguments. -/
theorem c7_derive_deterministic (s : List Char) (e : String) :
    (derive s e).signingPub = (derive s e).signingPub ∧
    (derive s e).signingPriv = (derive s e).signingPriv ∧
    (derive s e).encryptionKey = (derive s e).encryptionKey ∧
    (∀ (rand : Nat → Nat), authIdentity rand = derive (mkSeed rand) encodingArg) ∧
    subAIdentity = derive subNewSeedArg.toList encodingArg :=
  ⟨rfl, rfl, rfl, fun _ => rfl, rfl⟩

/-- C8: main writes the seed buffer out of bounds: index 10 is among the
written indices of the 10-element buffer, 10 is not below the buffer length,
and so not every write index is within bounds. -/
theorem c8_oob_write :
    10 ∈ seedWriteIndices ∧ decide (10 < seedBufLen) = false ∧
    seedWriteIndices.all (fun i => decide (i < seedBufLen)) = false := by decide

/-- C9: the seed string main actually passes to sub_new is the literal
"sub_seed_a", which differs from the contents of the variable sub_seed_a that
the preceding printf reports; the trace contains the sub_new event with that
literal argument. -/
theorem c9_seed_arg_mismatch :
    (subNewSeedArg == sub_seed_a) = false ∧
    Event.subNew subNewSeedArg encodingArg sizeArg ∈ (runMain zeroRand).trace := by
  refine ⟨rfl, ?_⟩
  simp [runMain]

/-- C10: main always terminates with exit code 0 — the model of main is a
total function — its seed loop performs exactly 10 iterations (the seed has
length 10), and the executed trace has exactly 9 library calls. -/
theorem c10_terminates_zero (rand : Nat → Nat) :
    (runMain rand).exitCode = 0 ∧ (mkSeed rand).length = 10 ∧
    (runMain rand).trace.length = 9 :=
  ⟨rfl, by simp [mkSeed], rfl⟩

end Streams
